import Mathlib

/-!
Shallow embedding of `src/backend/server.js` from the
`patidarmonesh/intern-assignment` repository.  The single source file
contains two programs: an Express backend (store, SSE broadcast hub,
question-submission coordinator) and a React frontend whose
`drawVisualization` callback is the timeline evaluator.

Modelling choices, justified at each definition:
* JavaScript numbers are modelled by a linear ordered field `K`
  (instantiated with `ℚ` or `ℝ` in theorems).  The JS value `NaN`,
  which the evaluator can produce via `0/0`, is modelled explicitly by
  `JNum.nan`; `JNum` arithmetic propagates `nan` exactly as IEEE/JS
  arithmetic propagates `NaN`.
* A JS property bag (`layer.props`) is a total function from key
  strings to `JVal`, where `JVal.undef` stands for both JS `undefined`
  and `null`: at every place this code reads a props or animation
  field, `undefined` and `null` behave identically (both are falsy and
  both are nullish), so the two are collapsed.
* `Math.cos` / `Math.sin` / `Math.PI` are passed in as a `TrigOps`
  record so the evaluator can be studied over `ℚ` (where no orbit
  value is actually computed) and over `ℝ` with `Real.cos` etc.
-/

set_option linter.unusedSectionVars false
set_option linter.unusedVariables false

namespace AiPrep

/-- A JavaScript value as stored in a layer's props bag: a number, the
special number `NaN`, a string, or `undefined`/`null` (collapsed, see
module comment). -/
inductive JVal (K : Type) where
  | num (x : K)
  | nan
  | str (s : String)
  | undef
deriving DecidableEq

/-- A JavaScript numeric computation result: a (finite) number or
`NaN`.  (In this program `Infinity` is unreachable: see `jnDiv`.) -/
inductive JNum (K : Type) where
  | num (x : K)
  | nan
deriving DecidableEq

variable {K : Type} [LinearOrderedField K]

/-- JS addition: `NaN` propagates. -/
def JNum.add : JNum K → JNum K → JNum K
  | .num a, .num b => .num (a + b)
  | _, _ => .nan

/-- JS subtraction: `NaN` propagates. -/
def JNum.sub : JNum K → JNum K → JNum K
  | .num a, .num b => .num (a - b)
  | _, _ => .nan

/-- JS multiplication: `NaN` propagates (note `0 * NaN = NaN` in JS,
unlike `0 * x = 0` in a field, which is why `NaN` must be explicit). -/
def JNum.mul : JNum K → JNum K → JNum K
  | .num a, .num b => .num (a * b)
  | _, _ => .nan

instance : Add (JNum K) := ⟨JNum.add⟩
instance : Sub (JNum K) := ⟨JNum.sub⟩
instance : Mul (JNum K) := ⟨JNum.mul⟩

@[simp] theorem JNum.num_add (a b : K) :
    (JNum.num a + JNum.num b) = JNum.num (a + b) := rfl
@[simp] theorem JNum.num_sub (a b : K) :
    (JNum.num a - JNum.num b) = JNum.num (a - b) := rfl
@[simp] theorem JNum.num_mul (a b : K) :
    (JNum.num a * JNum.num b) = JNum.num (a * b) := rfl
@[simp] theorem JNum.nan_add (a : JNum K) : (JNum.nan + a) = JNum.nan := rfl
@[simp] theorem JNum.nan_mul (a : JNum K) : (JNum.nan * a) = JNum.nan := rfl
@[simp] theorem JNum.nan_sub (a : JNum K) : (JNum.nan - a) = JNum.nan := rfl
@[simp] theorem JNum.add_nan (a : JNum K) : (a + JNum.nan) = JNum.nan := by
  cases a <;> rfl
@[simp] theorem JNum.sub_nan (a : JNum K) : (a - JNum.nan) = JNum.nan := by
  cases a <;> rfl
@[simp] theorem JNum.mul_nan (a : JNum K) : (a * JNum.nan) = JNum.nan := by
  cases a <;> rfl

/-- JS division on the model.  JS gives `0/0 = NaN` and `a/0 = ±Infinity`
for `a ≠ 0`; in this program every division either has a nonzero
denominator (the literal `/ 2` in the ease-in-out curve) or occurs as
`(currentTime - s) / (e - s)` under the guard
`currentTime >= s && currentTime <= e`, where a zero denominator
(`e == s`) forces `currentTime == s`, i.e. a zero numerator.  So every
reachable zero-denominator division is `0/0 = NaN`, and mapping all
zero-denominator cases to `nan` is faithful at every call site. -/
def jnDiv : JNum K → JNum K → JNum K
  | .num a, .num b => if b = 0 then .nan else .num (a / b)
  | _, _ => .nan

@[simp] theorem jnDiv_num (a b : K) :
    jnDiv (JNum.num a) (JNum.num b) = if b = 0 then JNum.nan else JNum.num (a / b) := rfl
@[simp] theorem jnDiv_nan_left (a : JNum K) : jnDiv JNum.nan a = JNum.nan := rfl
@[simp] theorem jnDiv_nan_right (a : JNum K) : jnDiv a JNum.nan = JNum.nan := by
  cases a <;> rfl

/-- JS `a < b` for a possibly-`NaN` left operand: any comparison with
`NaN` is false. -/
def jnLtB (a : JNum K) (b : K) : Bool :=
  match a with
  | .num x => decide (x < b)
  | .nan => false

@[simp] theorem jnLtB_num (x b : K) : jnLtB (JNum.num x) b = decide (x < b) := rfl
@[simp] theorem jnLtB_nan (b : K) : jnLtB (JNum.nan : JNum K) b = false := rfl

/-- The frontend's trigonometric primitives (`Math.PI`, `Math.cos`,
`Math.sin`), abstracted so the evaluator can be instantiated over any
ordered field; theorems about orbit values use `ℝ` with the real
functions. -/
structure TrigOps (K : Type) where
  pi : K
  cos : K → K
  sin : K → K

/-- `Math.cos` lifted to possibly-`NaN` input (`Math.cos(NaN) = NaN`). -/
def TrigOps.jcos (T : TrigOps K) : JNum K → JNum K
  | .num x => .num (T.cos x)
  | .nan => .nan

/-- `Math.sin` lifted to possibly-`NaN` input. -/
def TrigOps.jsin (T : TrigOps K) : JNum K → JNum K
  | .num x => .num (T.sin x)
  | .nan => .nan

@[simp] theorem TrigOps.jcos_num (T : TrigOps K) (x : K) :
    T.jcos (JNum.num x) = JNum.num (T.cos x) := rfl
@[simp] theorem TrigOps.jsin_num (T : TrigOps K) (x : K) :
    T.jsin (JNum.num x) = JNum.num (T.sin x) := rfl
@[simp] theorem TrigOps.jcos_nan (T : TrigOps K) : T.jcos JNum.nan = JNum.nan := rfl
@[simp] theorem TrigOps.jsin_nan (T : TrigOps K) : T.jsin JNum.nan = JNum.nan := rfl

/-- `applyEasing` (App.js): a switch over the easing name whose default
branch (unknown name, or absent easing, including the name "linear"
itself, which has no case of its own) returns `t` unchanged. -/
def applyEasing (t : JNum K) (easing : Option String) : JNum K :=
  match easing with
  | some "ease-in" => t * t
  | some "ease-out" => JNum.num 1 - (JNum.num 1 - t) * (JNum.num 1 - t)
  | some "ease-in-out" =>
      if jnLtB t (1 / 2) then JNum.num 2 * t * t
      else JNum.num 1 - jnDiv ((JNum.num (-2) * t + JNum.num 2) * (JNum.num (-2) * t + JNum.num 2)) (JNum.num 2)
  | _ => t

/-- `NaN` in, `NaN` out: every easing branch is arithmetic on `t`. -/
theorem applyEasing_nan (easing : Option String) :
    applyEasing (JNum.nan : JNum K) easing = JNum.nan := by
  unfold applyEasing
  split <;> simp

/-- A finite number in, a finite number out: no easing branch divides
by zero (the only division is by the literal 2). -/
theorem applyEasing_num (x : K) (easing : Option String) :
    ∃ y : K, applyEasing (JNum.num x) easing = JNum.num y := by
  unfold applyEasing
  split
  · exact ⟨x * x, rfl⟩
  · exact ⟨1 - (1 - x) * (1 - x), by simp⟩
  · by_cases h : x < 1 / 2
    · have hb : jnLtB (JNum.num x) ((1 : K) / 2) = true := by
        simp only [jnLtB_num, decide_eq_true_eq, decide_eq_false_iff_not, not_lt]
        linarith [h]
      rw [hb]
      exact ⟨2 * x * x, by simp⟩
    · have hb : jnLtB (JNum.num x) ((1 : K) / 2) = false := by
        simp only [jnLtB_num, decide_eq_true_eq, decide_eq_false_iff_not, not_lt]
        linarith [h]
      rw [hb]
      refine ⟨1 - (-2 * x + 2) * (-2 * x + 2) / 2, ?_⟩
      have h2 : (2 : K) ≠ 0 := by norm_num
      simp [jnDiv, h2]
  · exact ⟨x, rfl⟩

@[simp] theorem applyEasing_linear (t : JNum K) : applyEasing t (some "linear") = t := rfl

@[simp] theorem applyEasing_none (t : JNum K) : applyEasing t none = t := rfl

/-- One animation record, with the source's field names where Lean
allows it (`from` and `end` are Lean keywords, hence `fromVal`,
`toVal`, `endVal`).  Numeric fields are a number or `null`/absent
(`Option K`): that is the shape the generation prompt requests
(`<num|null>`), and `null` and `undefined` are interchangeable under
both `||` and `??` as used here. -/
structure Animation (K : Type) where
  property : String
  fromVal : Option K
  toVal : Option K
  start : Option K
  endVal : Option K
  easing : Option String
  centerX : Option K
  centerY : Option K
  radius : Option K
deriving DecidableEq

/-- JS `a || d` for a numeric field: a nonzero number is truthy and
kept; `0`, `null` and `undefined` are falsy and yield the default. -/
def jsOrNum (a : Option K) (d : K) : K :=
  match a with
  | some x => if x = 0 then d else x
  | none => d

@[simp] theorem jsOrNum_none (d : K) : jsOrNum (none : Option K) d = d := rfl
@[simp] theorem jsOrNum_some (x d : K) :
    jsOrNum (some x) d = if x = 0 then d else x := rfl

/-- JS property assignment `props[key] = v` on a bag modelled as a
total function. -/
def setProp (p : String → JVal K) (key : String) (v : JVal K) : String → JVal K :=
  fun k => if k = key then v else p k

@[simp] theorem setProp_same (p : String → JVal K) (key : String) (v : JVal K) :
    setProp p key v key = v := by simp [setProp]

theorem setProp_other (p : String → JVal K) (key k : String) (v : JVal K)
    (h : k ≠ key) : setProp p key v k = p k := by simp [setProp, h]

/-- Injection of a computed JS number into a props value. -/
def JNum.toJVal : JNum K → JVal K
  | .num x => .num x
  | .nan => .nan

@[simp] theorem JNum.toJVal_num (x : K) : (JNum.num x).toJVal = JVal.num x := rfl
@[simp] theorem JNum.toJVal_nan : (JNum.nan : JNum K).toJVal = JVal.nan := rfl

/-- The raw value of a nullable animation field as written into the
props bag by `props[anim.property] = anim.to` (no defaulting). -/
def jvalOfOpt : Option K → JVal K
  | some x => .num x
  | none => .undef

@[simp] theorem jvalOfOpt_some (x : K) : jvalOfOpt (some x) = JVal.num x := rfl
@[simp] theorem jvalOfOpt_none : (jvalOfOpt (none : Option K)) = JVal.undef := rfl

/-- One step of the `layer.animations.forEach` body inside
`drawVisualization` (App.js):

* `s = anim.start || 0`, `e = anim.end || visualization.duration`;
* if `currentTime >= s && currentTime <= e`: `p = (currentTime−s)/(e−s)`
  (JS division, `0/0 = NaN` when `e == s`), `eased = applyEasing(p)`;
  the orbit branch sets `x`/`y` from the circle formula (with
  `centerX || 0`, `centerY || 0`, `radius || 50`), any other property
  is set to `(from ?? 0) + ((to ?? 0) − (from ?? 0)) × eased`;
* else if `currentTime > e && anim.property !== "orbit"`: the property
  is set to the raw `anim.to`;
* else: the props bag is left unchanged. -/
def applyAnim (T : TrigOps K) (duration currentTime : K)
    (props : String → JVal K) (anim : Animation K) : String → JVal K :=
  let s := jsOrNum anim.start 0
  let e := jsOrNum anim.endVal duration
  if currentTime ≥ s ∧ currentTime ≤ e then
    let p := jnDiv (JNum.num (currentTime - s)) (JNum.num (e - s))
    let eased := applyEasing p anim.easing
    if anim.property = "orbit" then
      let angle := JNum.num 2 * JNum.num T.pi * eased
      let xv := JNum.num (jsOrNum anim.centerX 0) + T.jcos angle * JNum.num (jsOrNum anim.radius 50)
      let yv := JNum.num (jsOrNum anim.centerY 0) + T.jsin angle * JNum.num (jsOrNum anim.radius 50)
      setProp (setProp props "x" xv.toJVal) "y" yv.toJVal
    else
      let v := JNum.num (anim.fromVal.getD 0) +
        (JNum.num (anim.toVal.getD 0) - JNum.num (anim.fromVal.getD 0)) * eased
      setProp props anim.property v.toJVal
  else if currentTime > e ∧ anim.property ≠ "orbit" then
    setProp props anim.property (jvalOfOpt anim.toVal)
  else
    props

/-- `layer.animations.forEach(anim => ...)`: left fold of the step over
the declared order.  A layer without an `animations` field is the empty
list (the `if (layer.animations)` guard and an empty loop coincide). -/
def applyAnims (T : TrigOps K) (duration currentTime : K)
    (props : String → JVal K) (anims : List (Animation K)) : String → JVal K :=
  anims.foldl (applyAnim T duration currentTime) props

@[simp] theorem applyAnims_nil (T : TrigOps K) (duration currentTime : K)
    (props : String → JVal K) :
    applyAnims T duration currentTime props [] = props := rfl

theorem applyAnims_append (T : TrigOps K) (duration currentTime : K)
    (props : String → JVal K) (l₁ l₂ : List (Animation K)) :
    applyAnims T duration currentTime props (l₁ ++ l₂) =
      applyAnims T duration currentTime (applyAnims T duration currentTime props l₁) l₂ := by
  simp [applyAnims, List.foldl_append]

theorem applyAnims_cons (T : TrigOps K) (duration currentTime : K)
    (props : String → JVal K) (a : Animation K) (l : List (Animation K)) :
    applyAnims T duration currentTime props (a :: l) =
      applyAnims T duration currentTime (applyAnim T duration currentTime props a) l := rfl

/-- One drawable layer: shape kind, base props, declared animations. -/
structure Layer (K : Type) where
  id : String
  type : String
  props : String → JVal K
  animations : List (Animation K)

/-- A scene as consumed by the evaluator.  `duration` and `fps` are
plain numbers here: every claim about the evaluator supplies a
well-formed scene (the backend's normalizer is modelled separately,
with loosely-typed fields, as `NormViz`). -/
structure Visualization (K : Type) where
  id : String
  duration : K
  fps : K
  layers : List (Layer K)

/-- Per-layer resolution in `drawVisualization`: start from a copy of
the layer's base props (the object-spread copy of `layer.props`) and apply the animations
in declared order. -/
def resolveLayer (T : TrigOps K) (duration currentTime : K) (layer : Layer K) :
    String → JVal K :=
  applyAnims T duration currentTime layer.props layer.animations

/-- The evaluative content of `drawVisualization`: the ordered
(type, resolved props) sequence at playback position `progress`, with
`currentTime = progress * visualization.duration`.  Drawing itself
(canvas calls, opacity clamping at `ctx.globalAlpha`) is I/O on this
resolved frame and is not modelled. -/
def resolveFrame (T : TrigOps K) (viz : Visualization K) (progress : K) :
    List (String × (String → JVal K)) :=
  viz.layers.map (fun l => (l.type, resolveLayer T viz.duration (progress * viz.duration) l))

/-- Trivial trig instantiation for claims whose content is independent
of the trigonometric primitives (stated for every `TrigOps`); used
only to produce concrete witnesses over `ℚ`. -/
def qTrig : TrigOps ℚ := ⟨0, fun _ => 0, fun _ => 0⟩

@[simp] theorem applyAnims_singleton (T : TrigOps K) (duration currentTime : K)
    (props : String → JVal K) (a : Animation K) :
    applyAnims T duration currentTime props [a] = applyAnim T duration currentTime props a := rfl

/-- Step lemma: an active (in-window) non-orbit animation sets its
property to the interpolated value, which depends only on the
animation, the window and `currentTime`, never on the incoming props. -/
theorem applyAnim_inWindow (T : TrigOps K) (dur ct : K)
    (props : String → JVal K) (a : Animation K)
    (h1 : jsOrNum a.start 0 ≤ ct) (h2 : ct ≤ jsOrNum a.endVal dur)
    (ho : a.property ≠ "orbit") :
    applyAnim T dur ct props a = setProp props a.property
      (JNum.num (a.fromVal.getD 0) +
        (JNum.num (a.toVal.getD 0) - JNum.num (a.fromVal.getD 0)) *
          applyEasing
            (jnDiv (JNum.num (ct - jsOrNum a.start 0))
              (JNum.num (jsOrNum a.endVal dur - jsOrNum a.start 0))) a.easing).toJVal := by
  simp only [applyAnim]
  rw [if_pos ⟨h1, h2⟩, if_neg ho]

/-- Step lemma: an active orbit animation sets `x` and `y` from the
circle formula. -/
theorem applyAnim_inWindow_orbit (T : TrigOps K) (dur ct : K)
    (props : String → JVal K) (a : Animation K)
    (h1 : jsOrNum a.start 0 ≤ ct) (h2 : ct ≤ jsOrNum a.endVal dur)
    (ho : a.property = "orbit") :
    applyAnim T dur ct props a =
      setProp
        (setProp props "x"
          (JNum.num (jsOrNum a.centerX 0) +
            T.jcos (JNum.num 2 * JNum.num T.pi *
              applyEasing
                (jnDiv (JNum.num (ct - jsOrNum a.start 0))
                  (JNum.num (jsOrNum a.endVal dur - jsOrNum a.start 0))) a.easing) *
              JNum.num (jsOrNum a.radius 50)).toJVal)
        "y"
        (JNum.num (jsOrNum a.centerY 0) +
          T.jsin (JNum.num 2 * JNum.num T.pi *
            applyEasing
              (jnDiv (JNum.num (ct - jsOrNum a.start 0))
                (JNum.num (jsOrNum a.endVal dur - jsOrNum a.start 0))) a.easing) *
            JNum.num (jsOrNum a.radius 50)).toJVal := by
  simp only [applyAnim]
  rw [if_pos ⟨h1, h2⟩, if_pos ho]

/-- Step lemma: a finished (`currentTime > end`) non-orbit animation
freezes its property at the raw `anim.to`. -/
theorem applyAnim_pastEnd (T : TrigOps K) (dur ct : K)
    (props : String → JVal K) (a : Animation K)
    (he : jsOrNum a.endVal dur < ct) (ho : a.property ≠ "orbit") :
    applyAnim T dur ct props a = setProp props a.property (jvalOfOpt a.toVal) := by
  simp only [applyAnim]
  rw [if_neg (by
    rintro ⟨-, h2⟩
    exact absurd he (not_lt.mpr h2)), if_pos ⟨he, ho⟩]

/-- Step lemma: a finished orbit animation applies no update at all. -/
theorem applyAnim_pastEnd_orbit (T : TrigOps K) (dur ct : K)
    (props : String → JVal K) (a : Animation K)
    (he : jsOrNum a.endVal dur < ct) (ho : a.property = "orbit") :
    applyAnim T dur ct props a = props := by
  simp only [applyAnim]
  rw [if_neg (by
    rintro ⟨-, h2⟩
    exact absurd he (not_lt.mpr h2)), if_neg (by
    rintro ⟨-, h2⟩
    exact h2 ho)]

/-- Step lemma: an animation that has not started yet (and is not past
its end either) leaves the props bag unchanged. -/
theorem applyAnim_notStarted (T : TrigOps K) (dur ct : K)
    (props : String → JVal K) (a : Animation K)
    (hs : ct < jsOrNum a.start 0) (he : ct ≤ jsOrNum a.endVal dur) :
    applyAnim T dur ct props a = props := by
  simp only [applyAnim]
  rw [if_neg (by
    rintro ⟨h1, -⟩
    exact absurd hs (not_lt.mpr h1)), if_neg (by
    rintro ⟨h1, -⟩
    exact absurd h1 (not_lt.mpr he))]

/-! ### Claim C3: zero-width animation windows -/

/-- A zero-width-window animation (`start = end = 1000`) on `x`, as in
claim C3, inside a `duration = 5000` scene. -/
def zwAnim : Animation ℚ := ⟨"x", some 0, some 100, some 1000, some 1000, some "linear", none, none, none⟩

def zwViz : Visualization ℚ :=
  ⟨"v3", 5000, 30, [⟨"l1", "circle", fun _ => JVal.undef, [zwAnim]⟩]⟩

/-- Claim C3 is false on the code: for an animation with
`end == start == 1000` evaluated at the progress whose `currentTime` is
exactly that instant, the evaluator computes `t = 0/0 = NaN` (there is
no `end == start` guard in `drawVisualization`), so the resolved
property is `NaN` — not the eased endpoint `to = 100` and not a finite
number. -/
theorem C3_cex_zero_width_is_nan :
    ((resolveFrame qTrig zwViz (1000 / 5000)).map (fun lp => lp.2 "x")) = [JVal.nan] ∧
      (JVal.nan : JVal ℚ) ≠ JVal.num 100 := by
  refine ⟨?_, by decide⟩
  norm_num [resolveFrame, resolveLayer, applyAnims, applyAnim, jnLtB, jnDiv,
    jsOrNum, setProp, zwViz, zwAnim, List.foldl, JNum.toJVal,
    (show ("x" : String) ≠ "orbit" from by decide)]

/-- Claim C3 (amended): for an animation whose window is zero-width at
a nonzero instant `k` (at `k = 0` the `anim.end || duration` defaulting
replaces the `end` bound by the scene duration, so the window is not
zero-width after all), evaluating at `currentTime = k` computes
`t = 0/0 = NaN` and writes `NaN` to the animated property (to `x` and
`y` for an orbit animation); no exception is raised and evaluation of
the remaining animations and layers continues. -/
theorem C3_amended_zero_width_nan (T : TrigOps ℚ) (dur : ℚ)
    (props : String → JVal ℚ) (a : Animation ℚ) (k ct : ℚ)
    (hs : a.start = some k) (he : a.endVal = some k) (hk : k ≠ 0) (hct : ct = k) :
    (a.property ≠ "orbit" →
      applyAnim T dur ct props a = setProp props a.property JVal.nan) ∧
    (a.property = "orbit" →
      applyAnim T dur ct props a = setProp (setProp props "x" JVal.nan) "y" JVal.nan) := by
  have hs' : jsOrNum a.start 0 = k := by simp [hs, hk]
  have he' : jsOrNum a.endVal dur = k := by simp [he, hk]
  have hle : jsOrNum a.start 0 ≤ ct := by rw [hs', hct]
  have hge : ct ≤ jsOrNum a.endVal dur := by rw [he', hct]
  constructor
  · intro ho
    rw [applyAnim_inWindow T dur ct props a hle hge ho, hs', he', hct]
    simp [applyEasing_nan]
  · intro ho
    rw [applyAnim_inWindow_orbit T dur ct props a hle hge ho, hs', he', hct]
    simp [applyEasing_nan]

/-- Witness for the amended C3 at the concrete zero-width animation of
the counterexample. -/
theorem C3_amended_zero_width_nan_w :
    zwAnim.start = some 1000 ∧ zwAnim.endVal = some 1000 ∧ (1000 : ℚ) ≠ 0 ∧
      ((1000 : ℚ) = 1000) ∧ zwAnim.property ≠ "orbit" ∧
      applyAnim qTrig 5000 1000 (fun _ => JVal.undef) zwAnim =
        setProp (fun _ => JVal.undef) zwAnim.property JVal.nan :=
  ⟨rfl, rfl, by decide, rfl, by decide,
    (C3_amended_zero_width_nan qTrig 5000 (fun _ => JVal.undef) zwAnim 1000 1000
      rfl rfl (by decide) rfl).1 (by decide)⟩

/-! ### Claim C4: orbit animations past their window -/

/-- Claim C4: once `currentTime > end`, an orbit animation applies no
update at all — the props produced by the earlier animations (or base
props) are returned unchanged — whereas a non-orbit animation is
frozen at its raw `to` value.  Stated for every trig interpretation,
every duration, every props bag and every prefix of earlier
animations. -/
theorem C4_orbit_past_end_no_update (T : TrigOps ℚ) (dur ct : ℚ)
    (props0 : String → JVal ℚ) (anims : List (Animation ℚ)) (a : Animation ℚ)
    (he : jsOrNum a.endVal dur < ct) :
    (a.property = "orbit" →
      applyAnims T dur ct props0 (anims ++ [a]) = applyAnims T dur ct props0 anims) ∧
    (a.property ≠ "orbit" →
      applyAnims T dur ct props0 (anims ++ [a]) =
        setProp (applyAnims T dur ct props0 anims) a.property (jvalOfOpt a.toVal)) := by
  constructor
  · intro ho
    rw [applyAnims_append, applyAnims_singleton]
    exact applyAnim_pastEnd_orbit T dur ct _ a he ho
  · intro ho
    rw [applyAnims_append, applyAnims_singleton]
    exact applyAnim_pastEnd T dur ct _ a he ho

/-- Witness for C4: a concrete orbit animation with window `[0,3000]`
in a `duration = 5000` scene, evaluated at `currentTime = 4000`, after
an earlier animation that set `x`; the resolved props are exactly the
ones the earlier animation produced. -/
theorem C4_orbit_past_end_no_update_w :
    jsOrNum ((⟨"orbit", none, none, some 0, some 3000, none, some 350, some 225, some 100⟩ :
        Animation ℚ)).endVal 5000 < 4000 ∧
    applyAnims qTrig 5000 4000 (fun _ => JVal.undef)
        ([⟨"x", some 0, some 60, some 0, some 2000, none, none, none, none⟩] ++
          [⟨"orbit", none, none, some 0, some 3000, none, some 350, some 225, some 100⟩]) =
      applyAnims qTrig 5000 4000 (fun _ => JVal.undef)
        [⟨"x", some 0, some 60, some 0, some 2000, none, none, none, none⟩] :=
  ⟨by decide,
    (C4_orbit_past_end_no_update qTrig 5000 4000 (fun _ => JVal.undef)
      [⟨"x", some 0, some 60, some 0, some 2000, none, none, none, none⟩]
      ⟨"orbit", none, none, some 0, some 3000, none, some 350, some 225, some 100⟩
      (by decide)).1 rfl⟩

/-! ### Claim C5: the linear example scenario -/

/-- The animation of claim C5: `start=1000, end=3000, from=0, to=100`,
linear easing, on the non-orbit property `x`. -/
def linAnim : Animation ℚ := ⟨"x", some 0, some 100, some 1000, some 3000, some "linear", none, none, none⟩

/-- One layer whose base props give `x = 20`. -/
def linLayer : Layer ℚ :=
  ⟨"l1", "circle", fun k => if k = "x" then JVal.num 20 else JVal.undef, [linAnim]⟩

def linViz : Visualization ℚ := ⟨"v5", 5000, 30, [linLayer]⟩

/-- Claim C5: in the `duration = 5000` scene, the resolved `x` is `0`
at progress `1000/5000`, `100` at `3000/5000`, `100` (frozen) at
`4000/5000`, and the base-props value (`20`) at progress `0`. -/
theorem C5_linear_example :
    ((resolveFrame qTrig linViz (1000 / 5000)).map (fun lp => lp.2 "x")) = [JVal.num 0] ∧
    ((resolveFrame qTrig linViz (3000 / 5000)).map (fun lp => lp.2 "x")) = [JVal.num 100] ∧
    ((resolveFrame qTrig linViz (4000 / 5000)).map (fun lp => lp.2 "x")) = [JVal.num 100] ∧
    ((resolveFrame qTrig linViz 0).map (fun lp => lp.2 "x")) = [JVal.num 20] := by
  norm_num [resolveFrame, resolveLayer, applyAnims, applyAnim, jnLtB, jnDiv,
    jsOrNum, setProp, linViz, linLayer, linAnim, List.foldl, JNum.toJVal,
    (show ("x" : String) ≠ "orbit" from by decide)]

/-! ### Claim C6: later-declared animations win -/

/-- Claim C6: when an active non-orbit animation `a` is the
later-declared entry, the resolved value of its property after applying
the whole list is the value `a` alone computes — independent of every
earlier animation and of the incoming props bag (stated with two
unrelated bags `props0`, `props1`). -/
theorem C6_later_animation_wins (T : TrigOps ℚ) (dur ct : ℚ)
    (props0 props1 : String → JVal ℚ) (l : List (Animation ℚ)) (a : Animation ℚ)
    (ho : a.property ≠ "orbit")
    (h1 : jsOrNum a.start 0 ≤ ct) (h2 : ct ≤ jsOrNum a.endVal dur) :
    (applyAnims T dur ct props0 (l ++ [a])) a.property =
      (applyAnims T dur ct props1 [a]) a.property := by
  rw [applyAnims_append, applyAnims_singleton, applyAnims_singleton,
    applyAnim_inWindow T dur ct _ a h1 h2 ho,
    applyAnim_inWindow T dur ct props1 a h1 h2 ho]
  simp

/-- Witness for C6: two animations on `x` with overlapping windows
(`[0,5000]` and `[1000,3000]`), both active at `currentTime = 2000`;
the resolved `x` equals the later one's value `25` (the earlier one
alone would give `40`). -/
theorem C6_later_animation_wins_w :
    ((⟨"x", some 0, some 50, some 1000, some 3000, some "linear", none, none, none⟩ :
        Animation ℚ)).property ≠ "orbit" ∧
    jsOrNum ((⟨"x", some 0, some 50, some 1000, some 3000, some "linear", none, none, none⟩ :
        Animation ℚ)).start 0 ≤ (2000 : ℚ) ∧
    (2000 : ℚ) ≤ jsOrNum ((⟨"x", some 0, some 50, some 1000, some 3000, some "linear", none,
        none, none⟩ : Animation ℚ)).endVal 5000 ∧
    (applyAnims qTrig 5000 2000 (fun _ => JVal.undef)
        ([⟨"x", some 0, some 100, some 0, some 5000, some "linear", none, none, none⟩] ++
          [⟨"x", some 0, some 50, some 1000, some 3000, some "linear", none, none, none⟩]))
        "x" =
      (applyAnims qTrig 5000 2000 (fun _ => JVal.num 7)
        [⟨"x", some 0, some 50, some 1000, some 3000, some "linear", none, none, none⟩]) "x" :=
  ⟨by decide, by decide, by decide,
    C6_later_animation_wins qTrig 5000 2000 (fun _ => JVal.undef) (fun _ => JVal.num 7)
      [⟨"x", some 0, some 100, some 0, some 5000, some "linear", none, none, none⟩]
      ⟨"x", some 0, some 50, some 1000, some 3000, some "linear", none, none, none⟩
      (by decide) (by decide) (by decide)⟩

/-! ### Claim C10: the past-end freeze writes the raw `to` value -/

/-- Claim C10: for a non-orbit animation whose `to` is absent, the
past-end freeze branch writes the raw absent value (JS
`undefined`/`null`) into the props bag — not the documented default 0
and not the base value — while inside the active window the
`(to ?? 0)` defaulting produces an actual number. -/
theorem C10_freeze_raw_to (T : TrigOps ℚ) (dur ct : ℚ)
    (props : String → JVal ℚ) (a : Animation ℚ)
    (ho : a.property ≠ "orbit") (ht : a.toVal = none) :
    (jsOrNum a.endVal dur < ct →
      applyAnim T dur ct props a = setProp props a.property JVal.undef) ∧
    (jsOrNum a.start 0 ≤ ct → ct ≤ jsOrNum a.endVal dur →
      jsOrNum a.start 0 ≠ jsOrNum a.endVal dur →
      ∃ q : ℚ, applyAnim T dur ct props a = setProp props a.property (JVal.num q)) := by
  constructor
  · intro he
    rw [applyAnim_pastEnd T dur ct props a he ho, ht]
    rfl
  · intro h1 h2 hne
    rw [applyAnim_inWindow T dur ct props a h1 h2 ho]
    have hd : jsOrNum a.endVal dur - jsOrNum a.start 0 ≠ 0 := sub_ne_zero.mpr (Ne.symm hne)
    obtain ⟨y, hy⟩ := applyEasing_num
      ((ct - jsOrNum a.start 0) / (jsOrNum a.endVal dur - jsOrNum a.start 0)) a.easing
    refine ⟨a.fromVal.getD 0 +
      (a.toVal.getD 0 - a.fromVal.getD 0) * y, ?_⟩
    rw [jnDiv_num, if_neg hd, hy]
    simp

/-- Witness for C10: `to` absent, window `[1000,3000]`, duration 5000;
at `currentTime = 4000` the resolved `x` becomes `undefined` even
though the base props had `x = 20`. -/
theorem C10_freeze_raw_to_w :
    ((⟨"x", some 0, none, some 1000, some 3000, some "linear", none, none, none⟩ :
        Animation ℚ)).property ≠ "orbit" ∧
    ((⟨"x", some 0, none, some 1000, some 3000, some "linear", none, none, none⟩ :
        Animation ℚ)).toVal = none ∧
    jsOrNum ((⟨"x", some 0, none, some 1000, some 3000, some "linear", none, none, none⟩ :
        Animation ℚ)).endVal 5000 < (4000 : ℚ) ∧
    applyAnim qTrig 5000 4000 (fun k => if k = "x" then JVal.num 20 else JVal.undef)
        ⟨"x", some 0, none, some 1000, some 3000, some "linear", none, none, none⟩ =
      setProp (fun k => if k = "x" then JVal.num 20 else JVal.undef) "x" JVal.undef :=
  ⟨by decide, rfl, by decide,
    (C10_freeze_raw_to qTrig 5000 4000 (fun k => if k = "x" then JVal.num 20 else JVal.undef)
      ⟨"x", some 0, none, some 1000, some 3000, some "linear", none, none, none⟩
      (by decide) rfl).1 (by decide)⟩

/-! ### Claim C7: orbit animations trace the circle -/

/-- The frontend's actual trigonometric primitives over the reals
(`Math.PI`, `Math.cos`, `Math.sin`); real trigonometric functions have
no executable representation, hence the marker. -/
noncomputable def realTrig : TrigOps ℝ := ⟨Real.pi, Real.cos, Real.sin⟩

/-- The orbit animation of claim C7: `centerX=350, centerY=225,
radius=100`, linear easing, window `[0, duration]`. -/
def orbitAnim : Animation ℝ := ⟨"orbit", none, none, some 0, some 8000, some "linear", some 350, some 225, some 100⟩

def orbitLayer : Layer ℝ := ⟨"l7", "circle", fun _ => JVal.undef, [orbitAnim]⟩

def orbitViz : Visualization ℝ := ⟨"v7", 8000, 30, [orbitLayer]⟩

/-- Resolving the orbit layer at an in-window playback position writes
`x = centerX + cos(2π·eased)·radius` and
`y = centerY + sin(2π·eased)·radius` (linear easing: `eased = p`). -/
theorem orbit_resolve (p : ℝ) (h0 : 0 ≤ p) (h1 : p ≤ 1) :
    applyAnim realTrig 8000 (p * 8000) (fun _ => JVal.undef) orbitAnim =
      setProp (setProp (fun _ => JVal.undef) "x" (JVal.num (350 + Real.cos (2 * Real.pi * p) * 100)))
        "y" (JVal.num (225 + Real.sin (2 * Real.pi * p) * 100)) := by
  have hs : jsOrNum orbitAnim.start 0 = 0 := by simp [orbitAnim]
  have he : jsOrNum orbitAnim.endVal 8000 = 8000 := by norm_num [orbitAnim]
  rw [applyAnim_inWindow_orbit realTrig 8000 (p * 8000) _ orbitAnim
    (by rw [hs]; exact mul_nonneg h0 (by norm_num))
    (by rw [he]; nlinarith)
    (by simp [orbitAnim])]
  rw [hs, he]
  have hdiv : (p * 8000 - 0) / ((8000 : ℝ) - 0) = p := by field_simp
  norm_num [orbitAnim, hdiv, realTrig, mul_comm]

/-- Claim C7: for the orbit animation with `centerX=350, centerY=225,
radius=100` over window `[0, duration]` with linear easing, the
resolved position at every in-range progress `p` is
`(350 + cos(2πp)·100, 225 + sin(2πp)·100)`; in particular `(450, 225)`
at `p = 0` and `(350, 325)` at `p = 1/4` (exactly, over `ℝ`). -/
theorem C7_orbit_circle (p : ℝ) (h0 : 0 ≤ p) (h1 : p ≤ 1) :
    ((resolveFrame realTrig orbitViz p).map (fun lp => (lp.2 "x", lp.2 "y"))) =
      [(JVal.num (350 + Real.cos (2 * Real.pi * p) * 100),
        JVal.num (225 + Real.sin (2 * Real.pi * p) * 100))] ∧
    (p = 0 →
      ((resolveFrame realTrig orbitViz p).map (fun lp => (lp.2 "x", lp.2 "y"))) =
        [(JVal.num 450, JVal.num 225)]) ∧
    (p = 1 / 4 →
      ((resolveFrame realTrig orbitViz p).map (fun lp => (lp.2 "x", lp.2 "y"))) =
        [(JVal.num 350, JVal.num 325)]) := by
  have hgen : ((resolveFrame realTrig orbitViz p).map (fun lp => (lp.2 "x", lp.2 "y"))) =
      [(JVal.num (350 + Real.cos (2 * Real.pi * p) * 100),
        JVal.num (225 + Real.sin (2 * Real.pi * p) * 100))] := by
    simp only [resolveFrame, orbitViz, orbitLayer, resolveLayer, applyAnims, List.foldl,
      List.map]
    rw [orbit_resolve p h0 h1]
    simp [setProp]
  refine ⟨hgen, ?_, ?_⟩
  · intro hp
    rw [hgen, hp]
    norm_num
  · intro hp
    rw [hgen, hp]
    have hc : 2 * Real.pi * (1 / 4) = Real.pi / 2 := by ring
    rw [hc, Real.cos_pi_div_two, Real.sin_pi_div_two]
    norm_num

/-- Witness for C7 at `p = 1/4`. -/
theorem C7_orbit_circle_w :
    (0 : ℝ) ≤ 1 / 4 ∧ (1 / 4 : ℝ) ≤ 1 ∧
    ((resolveFrame realTrig orbitViz (1 / 4)).map (fun lp => (lp.2 "x", lp.2 "y"))) =
      [(JVal.num 350, JVal.num 325)] :=
  ⟨by norm_num, by norm_num, (C7_orbit_circle (1 / 4) (by norm_num) (by norm_num)).2.2 rfl⟩

/-! ### Backend: broadcast hub (server.js lines 32-39) -/

/-- One SSE subscriber as the broadcast loop sees it: a connection id
and the channel's current behaviour (`ok = false`: any `res.write`
throws, modelling a broken transport). -/
structure SSEClient where
  id : String
  ok : Bool
deriving DecidableEq

/-- `c.res.write(line)`: succeeds or throws depending on the channel. -/
def writeTo (c : SSEClient) (line : String) : Except String Unit :=
  if c.ok then Except.ok () else Except.error "write failed"

/-- The body of the `clients.forEach` callback in `broadcast`: two
writes inside a try block whose catch swallows the exception; the result records whether the
event reached this channel, and an exception never escapes. -/
def sendEvent (c : SSEClient) (event payload : String) : Bool :=
  match (writeTo c ("event: " ++ event ++ "\n")).bind
      (fun _ => writeTo c ("data: " ++ payload ++ "\n\n")) with
  | Except.ok _ => true
  | Except.error _ => false

/-- `broadcast(event, data)` (server.js): attempt delivery to every
registered client in order; `payload` is the serialized `data`. -/
def broadcast (clients : List SSEClient) (event payload : String) :
    List (String × Bool) :=
  clients.map (fun c => (c.id, sendEvent c event payload))

/-- Claim C8: `broadcast` attempts delivery to every registered channel
(one delivery record per client, in order), never raises (it is a total
function into plain delivery records: each client's exception is caught
inside `sendEvent`), and every channel whose writes succeed receives
the event no matter which other channels throw. -/
theorem C8_broadcast_isolates_failures (clients : List SSEClient) (event payload : String) :
    ((broadcast clients event payload).map Prod.fst = clients.map SSEClient.id) ∧
    (∀ c ∈ clients, c.ok = true → (c.id, true) ∈ broadcast clients event payload) := by
  constructor
  · simp [broadcast]
  · intro c hc hok
    refine List.mem_map.mpr ⟨c, hc, ?_⟩
    simp [sendEvent, writeTo, hok, Except.bind]

/-- Witness for C8: three clients, the middle one's writes throw; the
third still receives the event. -/
theorem C8_broadcast_isolates_failures_w :
    (⟨"c3", true⟩ : SSEClient) ∈
      [⟨"c1", true⟩, ⟨"c2", false⟩, (⟨"c3", true⟩ : SSEClient)] ∧
    (⟨"c3", true⟩ : SSEClient).ok = true ∧
    ("c3", true) ∈ broadcast [⟨"c1", true⟩, ⟨"c2", false⟩, ⟨"c3", true⟩] "ping" "keep-alive" :=
  ⟨by decide, rfl,
    (C8_broadcast_isolates_failures
        [⟨"c1", true⟩, ⟨"c2", false⟩, ⟨"c3", true⟩] "ping" "keep-alive").2
      ⟨"c3", true⟩ (by decide) rfl⟩

/-! ### Backend: scene normalization (`groqVizJSON`, server.js lines 160-175) -/

/-- JS truthiness of a value read from parsed JSON: `0`, `NaN`, the
empty string, `null` and `undefined` are falsy. -/
def jvalTruthy : JVal K → Bool
  | .num x => decide (x ≠ 0)
  | .nan => false
  | .str s => decide (s ≠ "")
  | .undef => false

/-- JS `a || b`. -/
def jsOrVal (a b : JVal K) : JVal K := if jvalTruthy a then a else b

/-- The `parsed.visualization` object as the normalizer receives it
from the generation backend: loosely-typed top-level fields, and
`layersArr = some ls` exactly when `Array.isArray(v.layers)` holds
(the layer entries themselves are passed through unvalidated). -/
structure RawViz (K : Type) where
  id : JVal K
  duration : JVal K
  fps : JVal K
  layersArr : Option (List (Layer K))

/-- The normalized visualization object the backend stores and ships:
the same loosely-typed fields after the `||` defaulting. -/
structure NormViz (K : Type) where
  id : JVal K
  duration : JVal K
  fps : JVal K
  layers : List (Layer K)

/-- Lines 167-173 of server.js: `v` is `parsed.visualization` defaulted to an empty object by a JS or,
followed by `id: v.id || vis_<ts>`, `duration: v.duration || 8000`,
`fps: v.fps || 30`, `layers: Array.isArray(v.layers) ? v.layers : []`. -/
def normalizeViz (vOpt : Option (RawViz K)) (freshId : String) : NormViz K :=
  let v := vOpt.getD ⟨JVal.undef, JVal.undef, JVal.undef, none⟩
  ⟨jsOrVal v.id (JVal.str freshId),
    jsOrVal v.duration (JVal.num 8000),
    jsOrVal v.fps (JVal.num 30),
    v.layersArr.getD []⟩

/-- Claim C9 is false on the code: `v.duration || 8000` replaces only
*falsy* values, so an invalid but truthy duration — here `-5` — is kept
verbatim and the resulting visualization violates `duration > 0`. -/
theorem C9_cex_negative_duration_kept :
    (normalizeViz (some ⟨JVal.undef, JVal.num (-5), JVal.undef, none⟩) "vis_1" : NormViz ℚ) =
      ⟨JVal.str "vis_1", JVal.num (-5), JVal.num 30, []⟩ ∧
    ¬ (0 : ℚ) < -5 := by
  constructor
  · simp [normalizeViz, jsOrVal, jvalTruthy, NormViz.mk.injEq]
  · norm_num

/-- Claim C9 (amended): normalization substitutes the documented
defaults for *missing or falsy* top-level fields (fresh id, 8000, 30,
empty layers for a non-array), and a missing `visualization` object
yields exactly the all-defaults record; but a truthy `duration` of any
value — including a negative number — is kept verbatim, so
`duration > 0` is not an invariant of the output. -/
theorem C9_amended_falsy_defaults (v : RawViz ℚ) (fid : String) :
    (jvalTruthy v.id = false → (normalizeViz (some v) fid).id = JVal.str fid) ∧
    (jvalTruthy v.duration = false → (normalizeViz (some v) fid).duration = JVal.num 8000) ∧
    (jvalTruthy v.fps = false → (normalizeViz (some v) fid).fps = JVal.num 30) ∧
    (v.layersArr = none → (normalizeViz (some v) fid).layers = []) ∧
    (jvalTruthy v.duration = true → (normalizeViz (some v) fid).duration = v.duration) ∧
    (normalizeViz (none : Option (RawViz ℚ)) fid =
      ⟨JVal.str fid, JVal.num 8000, JVal.num 30, []⟩) := by
  refine ⟨fun h => ?_, fun h => ?_, fun h => ?_, fun h => ?_, fun h => ?_, rfl⟩ <;>
    simp [normalizeViz, jsOrVal, h]

/-- Witness for the amended C9: a raw object whose id is the empty
string, whose duration is `0` and whose fps is `NaN` — all falsy, all
defaulted. -/
theorem C9_amended_falsy_defaults_w :
    jvalTruthy ((⟨JVal.str "", JVal.num 0, JVal.nan, none⟩ : RawViz ℚ)).duration = false ∧
    (normalizeViz (some (⟨JVal.str "", JVal.num 0, JVal.nan, none⟩ : RawViz ℚ)) "vis_9").duration =
      JVal.num 8000 :=
  ⟨by simp [jvalTruthy], (C9_amended_falsy_defaults ⟨JVal.str "", JVal.num 0, JVal.nan, none⟩
      "vis_9").2.1 (by simp [jvalTruthy])⟩

/-! ### Backend: store records and the submission handler
(`app.post` on the path /api/questions, server.js lines 178-218) -/

/-- A Question record as pushed into the in-memory `questions` array. -/
structure Question where
  id : String
  userId : String
  question : String
  answerId : String
  timestamp : String
deriving DecidableEq

/-- An Answer record as pushed into the in-memory `answers` array. -/
structure Answer (K : Type) where
  id : String
  text : String
  visualization : NormViz K
  timestamp : String

/-- The handler's HTTP response: a 400 with an error message, or a
success JSON carrying `questionId` and `answerId`. -/
inductive PostResp where
  | badRequest (error : String)
  | success (questionId : String) (answerId : String)
deriving DecidableEq

/-- The SSE events the handler broadcasts, in order.  Constructor names
mirror the event strings `question_created`, `generation_started`,
`answer_partial` and `answer_created`. -/
inductive SEvent (K : Type) where
  | questionCreated (q : Question)
  | generationStarted (answerId : String) (questionId : String)
  | answerPartialEv (answerId : String) (textPartial : String) (questionId : String)
  | answerCreated (a : Answer K)

/-- The in-memory store: the `questions` and `answers` arrays. -/
structure Store (K : Type) where
  questions : List Question
  answers : List (Answer K)

/-- The fresh identifiers the handler draws during one request:
`qid`/`aid` are the `q_<uuid>`/`a_<uuid>` allocated at the top of the
`try` block; `fbAid`/`fbQid` are the *fresh* uuids the `catch` block
generates for its response and fallback record (the try-block constants
are out of scope there); `vizId` is a `vis_<timestamp>`; `ts` the ISO
timestamp. -/
structure FreshIds where
  qid : String
  aid : String
  fbAid : String
  fbQid : String
  vizId : String
  ts : String

/-- Outcome of the two external generation calls, the only awaited
(and only throwing) operations in the `try` block: either both succeed
— the streamed text chunks and the raw scene JSON — or one of them
throws after `chunks` were already streamed (a throw in
`groqStreamText` and one in `groqVizJSON` land in the same `catch`
with the same observable behaviour). -/
inductive GenOutcome (K : Type) where
  | ok (chunks : List String) (raw : Option (RawViz K))
  | genFails (chunks : List String)

/-- JS falsiness of a request-body string field (`!userId`): absent or
empty. -/
def falsyStr : Option String → Bool
  | none => true
  | some s => decide (s = "")

/-- The successive accumulated texts of the streaming callback: for
chunks `[c1, c2, ...]` the broadcast partials carry `c1`, `c1 ++ c2`,
and so on. -/
def accumTexts : List String → String → List String
  | [], _ => []
  | c :: cs, acc => (acc ++ c) :: accumTexts cs (acc ++ c)

/-- The submission handler, state-passing form of
`app.post` on /api/questions:

* missing/empty `userId` or `question` → `400`, nothing stored;
* otherwise: push the Question (with the pre-allocated `answerId`),
  broadcast `question_created` and `generation_started`; then
  * on success: accumulate the streamed chunks (broadcasting
    `answer_partial` with the accumulated text each time), normalize
    the scene, push the Answer under the pre-allocated id, broadcast
    `answer_created`, respond `success` with the allocated ids;
  * on a generation error (the `catch` block): push a fallback Answer
    under a fresh id, whose text quotes the raw `req.body.question`
    and whose visualization is `vis_<ts>/7000/30/[]`, broadcast
    `answer_created`, and respond `success` with a fresh question id
    and the fallback answer id. -/
def postQuestions (ids : FreshIds) (userId? question? : Option String)
    (outcome : GenOutcome K) (st : Store K) :
    PostResp × Store K × List (SEvent K) :=
  if falsyStr userId? || falsyStr question? then
    (PostResp.badRequest "Missing userId or question", st, [])
  else
    let userId := userId?.getD ""
    let question := question?.getD ""
    let qrec : Question := ⟨ids.qid, userId, question.trim, ids.aid, ids.ts⟩
    let st1 : Store K := ⟨st.questions ++ [qrec], st.answers⟩
    let evs1 : List (SEvent K) :=
      [SEvent.questionCreated qrec, SEvent.generationStarted ids.aid ids.qid]
    match outcome with
    | GenOutcome.ok chunks raw =>
      let text := String.join chunks
      let partials := (accumTexts chunks "").map
        (fun t => SEvent.answerPartialEv ids.aid t ids.qid)
      let ans : Answer K := ⟨ids.aid, text, normalizeViz raw ids.vizId, ids.ts⟩
      (PostResp.success ids.qid ids.aid,
        ⟨st1.questions, st1.answers ++ [ans]⟩,
        evs1 ++ partials ++ [SEvent.answerCreated ans])
    | GenOutcome.genFails chunks =>
      let partials := (accumTexts chunks "").map
        (fun t => SEvent.answerPartialEv ids.aid t ids.qid)
      let fb : Answer K := ⟨ids.fbAid,
        "Here is a brief overview of \"" ++ question ++ "\".",
        ⟨JVal.str ids.vizId, JVal.num 7000, JVal.num 30, []⟩, ids.ts⟩
      (PostResp.success ids.fbQid ids.fbAid,
        ⟨st1.questions, st1.answers ++ [fb]⟩,
        evs1 ++ partials ++ [SEvent.answerCreated fb])

/-- Claim C1: whenever either external generation call throws, the
response is still `success` (with a question id and an answer id), and
an Answer record is appended to the store whose text contains the
original (raw) question text and whose visualization has duration 7000
and an empty layers array. -/
theorem C1_generation_failure_masked (ids : FreshIds) (u q : Option String)
    (chunks : List String) (st : Store ℚ)
    (hu : falsyStr u = false) (hq : falsyStr q = false) :
    (postQuestions ids u q (GenOutcome.genFails chunks) st).1 =
      PostResp.success ids.fbQid ids.fbAid ∧
    ∃ a : Answer ℚ,
      (postQuestions ids u q (GenOutcome.genFails chunks) st).2.1.answers =
        st.answers ++ [a] ∧
      (∃ pre post : String, a.text = pre ++ q.getD "" ++ post) ∧
      a.visualization.duration = JVal.num 7000 ∧
      a.visualization.layers = [] := by
  simp only [postQuestions, hu, hq, Bool.or_self, Bool.false_or, if_false]
  exact ⟨rfl,
    ⟨⟨ids.fbAid, "Here is a brief overview of \"" ++ q.getD "" ++ "\".",
        ⟨JVal.str ids.vizId, JVal.num 7000, JVal.num 30, []⟩, ids.ts⟩,
      rfl, ⟨"Here is a brief overview of \"", "\".", rfl⟩, rfl, rfl⟩⟩

/-- Witness for C1 at a concrete request whose generation throws. -/
theorem C1_generation_failure_masked_w :
    falsyStr (some "u1") = false ∧ falsyStr (some "What is photosynthesis?") = false ∧
    ((postQuestions ⟨"q1", "a1", "a2", "q2", "v1", "t0"⟩ (some "u1")
        (some "What is photosynthesis?") (GenOutcome.genFails []) ⟨[], []⟩ :
        PostResp × Store ℚ × List (SEvent ℚ)).1 =
      PostResp.success "q2" "a2" ∧
      ∃ a : Answer ℚ,
        (postQuestions ⟨"q1", "a1", "a2", "q2", "v1", "t0"⟩ (some "u1")
            (some "What is photosynthesis?") (GenOutcome.genFails [])
            (⟨[], []⟩ : Store ℚ)).2.1.answers = ([] : List (Answer ℚ)) ++ [a] ∧
        (∃ pre post : String,
          a.text = pre ++ (some "What is photosynthesis?").getD "" ++ post) ∧
        a.visualization.duration = JVal.num 7000 ∧
        a.visualization.layers = []) :=
  ⟨rfl, rfl,
    C1_generation_failure_masked ⟨"q1", "a1", "a2", "q2", "v1", "t0"⟩ (some "u1")
      (some "What is photosynthesis?") [] ⟨[], []⟩ rfl rfl⟩

/-- Claim C2 fails on the code (code bug): when generation throws, the
stored Question keeps its pre-allocated `answerId` (`"a1"`), but the
fallback Answer is stored under the *fresh* id `"a2"`, and the response
carries a *fresh* question id `"q2"` — neither matches the stored
records, so the 1:1 pre-allocated relationship is broken on the
failure path. -/
theorem C2_cex_fallback_breaks_preallocated_ids :
    (postQuestions (K := ℚ) ⟨"q1", "a1", "a2", "q2", "v1", "t0"⟩ (some "u1")
        (some "photosynthesis") (GenOutcome.genFails []) ⟨[], []⟩).2.1.questions =
      [⟨"q1", "u1", "photosynthesis".trim, "a1", "t0"⟩] ∧
    (∃ a : Answer ℚ,
      (postQuestions (K := ℚ) ⟨"q1", "a1", "a2", "q2", "v1", "t0"⟩ (some "u1")
          (some "photosynthesis") (GenOutcome.genFails []) ⟨[], []⟩).2.1.answers = [a] ∧
      a.id = "a2") ∧
    (postQuestions (K := ℚ) ⟨"q1", "a1", "a2", "q2", "v1", "t0"⟩ (some "u1")
        (some "photosynthesis") (GenOutcome.genFails []) ⟨[], []⟩).1 =
      PostResp.success "q2" "a2" ∧
    ("q2" : String) ≠ "q1" ∧ ("a2" : String) ≠ "a1" := by
  refine ⟨?_, ⟨⟨"a2", "Here is a brief overview of \"photosynthesis\".",
      ⟨JVal.str "v1", JVal.num 7000, JVal.num 30, []⟩, "t0"⟩, ?_, rfl⟩, rfl, by decide, by decide⟩
  · rfl
  · rfl

/-- On the success path the pre-allocated ids are used consistently:
the stored Question's `answerId` equals the stored Answer's id and the
response returns exactly the allocated pair (this is the part of claim
C2 the code does satisfy). -/
theorem C2_success_path_preallocated_ids (ids : FreshIds) (u q : Option String)
    (chunks : List String) (raw : Option (RawViz ℚ)) (st : Store ℚ)
    (hu : falsyStr u = false) (hq : falsyStr q = false) :
    (postQuestions ids u q (GenOutcome.ok chunks raw) st).1 =
      PostResp.success ids.qid ids.aid ∧
    ∃ qr : Question, ∃ a : Answer ℚ,
      (postQuestions ids u q (GenOutcome.ok chunks raw) st).2.1.questions =
        st.questions ++ [qr] ∧
      (postQuestions ids u q (GenOutcome.ok chunks raw) st).2.1.answers =
        st.answers ++ [a] ∧
      qr.id = ids.qid ∧ qr.answerId = ids.aid ∧ a.id = ids.aid := by
  simp only [postQuestions, hu, hq, Bool.or_self, Bool.false_or, if_false]
  exact ⟨rfl,
    ⟨⟨ids.qid, u.getD "", (q.getD "").trim, ids.aid, ids.ts⟩,
      ⟨ids.aid, String.join chunks, normalizeViz raw ids.vizId, ids.ts⟩,
      rfl, rfl, rfl, rfl, rfl⟩⟩

/-- Witness for the success-path theorem at a concrete request. -/
theorem C2_success_path_preallocated_ids_w :
    falsyStr (some "u1") = false ∧ falsyStr (some "photosynthesis") = false ∧
    ((postQuestions ⟨"q1", "a1", "a2", "q2", "v1", "t0"⟩ (some "u1")
        (some "photosynthesis") (GenOutcome.ok ["Hi"] none) (⟨[], []⟩ : Store ℚ)).1 =
      PostResp.success "q1" "a1" ∧
      ∃ qr : Question, ∃ a : Answer ℚ,
        (postQuestions ⟨"q1", "a1", "a2", "q2", "v1", "t0"⟩ (some "u1")
            (some "photosynthesis") (GenOutcome.ok ["Hi"] none)
            (⟨[], []⟩ : Store ℚ)).2.1.questions = ([] : List Question) ++ [qr] ∧
        (postQuestions ⟨"q1", "a1", "a2", "q2", "v1", "t0"⟩ (some "u1")
            (some "photosynthesis") (GenOutcome.ok ["Hi"] none)
            (⟨[], []⟩ : Store ℚ)).2.1.answers = ([] : List (Answer ℚ)) ++ [a] ∧
        qr.id = "q1" ∧ qr.answerId = "a1" ∧ a.id = "a1") :=
  ⟨rfl, rfl,
    C2_success_path_preallocated_ids ⟨"q1", "a1", "a2", "q2", "v1", "t0"⟩ (some "u1")
      (some "photosynthesis") ["Hi"] none ⟨[], []⟩ rfl rfl⟩

end AiPrep
